import Mathlib

/-!
# Verification of the CRM repository's data-isolation layer

Shallow embedding of the repository's persisted schema
(`src/01_init_database.sql`) and of the pure client utilities
(`src/utils.js`).

## Schema embedding conventions

* Each `CREATE TABLE` becomes a Lean structure whose fields keep the
  source column names.  SQL values are nullable by default, so every
  column is wrapped in `Option`; the sole exception is the
  `SERIAL PRIMARY KEY` column `id`, whose `NOT NULL` is intrinsic and
  is modelled by a plain `Nat`.
* Column types: `UUID` -> `Nat` (opaque identifier), `VARCHAR`/`TEXT`/
  `JSONB`/`INET` -> `String`, `INTEGER`/`BIGINT`/`DECIMAL` -> `Int`
  (fixed-point precision of `DECIMAL` is not modelled; no claim depends
  on numeric precision), `BOOLEAN` -> `Bool`, `TIMESTAMP`/`DATE` ->
  `Nat` (abstract instants), `TEXT[]` -> `List String`.
* The declared constraints (`NOT NULL`, `UNIQUE`, `REFERENCES`, and the
  `VARCHAR(n)` length bounds) are collected in the executable predicate
  `WF`.  Column `DEFAULT`s only fill in omitted columns of an INSERT
  statement and do not restrict which rows can exist, so they are not
  part of `WF`.
* The permitted operations are the SQL DML statements: single-row
  INSERT, single-row UPDATE (by primary key), single-row DELETE (by
  primary key); multi-row statements are sequences of these.  Every
  operation succeeds exactly when the resulting database state still
  satisfies `WF` (PostgreSQL checks the declared constraints on the
  state produced by the statement, with `NO ACTION` foreign keys).
  The `BEFORE UPDATE` triggers installed at the end of the script
  overwrite `updated_at` with the statement time on every update of the
  tables that carry the trigger (all tables except `auth.user_roles`,
  which has no `updated_at` column and no trigger).
-/

/-- `NOT NULL`: the SQL value is present. -/
def notNull {α : Type} (v : Option α) : Bool := v.isSome

/-- A foreign-key column is valid when it is NULL or matches the `uuid`
of some row of the referenced table. -/
def fkOk (uuids : List (Option Nat)) : Option Nat → Bool
  | none => true
  | some x => decide (some x ∈ uuids)

/-- `VARCHAR(n)`: a present value holds at most `n` characters. -/
def lenOk (n : Nat) : Option String → Bool
  | none => true
  | some s => decide (s.length ≤ n)

/-- Pairwise distinctness of primary keys. -/
def allDistinct : List Nat → Bool
  | [] => true
  | x :: xs => !(decide (x ∈ xs)) && allDistinct xs

/-- SQL `UNIQUE` on a nullable column: the non-NULL values are pairwise
distinct (several NULLs are allowed). -/
def optsDistinct {α : Type} [DecidableEq α] : List (Option α) → Bool
  | [] => true
  | none :: xs => optsDistinct xs
  | some x :: xs => !(decide (some x ∈ xs)) && optsDistinct xs

/-- Rows of `audit_logs` (src/01_init_database.sql, lines 20-37).
Note that its `tenant_id` is `NOT NULL` but carries no foreign key. -/
structure AuditLogRow where
  id : Nat
  uuid : Option Nat
  entity_type : Option String
  entity_id : Option Nat
  action : Option String
  old_values : Option String
  new_values : Option String
  user_id : Option Nat
  tenant_id : Option Nat
  ip_address : Option String
  user_agent : Option String
  created_at : Option Nat
  created_by : Option String
  updated_at : Option Nat
  updated_by : Option String
  is_active : Option Bool
deriving DecidableEq

/-- Rows of `tenants` (lines 46-60). -/
structure TenantRow where
  id : Nat
  uuid : Option Nat
  name : Option String
  slug : Option String
  domain : Option String
  settings : Option String
  subscription_plan : Option String
  subscription_status : Option String
  created_at : Option Nat
  updated_at : Option Nat
  created_by : Option String
  updated_by : Option String
  is_active : Option Bool
deriving DecidableEq

/-- Rows of `auth.users` (lines 67-86). -/
structure UserRow where
  id : Nat
  uuid : Option Nat
  email : Option String
  password_hash : Option String
  first_name : Option String
  last_name : Option String
  phone : Option String
  language : Option String
  timezone : Option String
  last_login : Option Nat
  email_verified : Option Bool
  phone_verified : Option Bool
  is_active : Option Bool
  tenant_id : Option Nat
  created_at : Option Nat
  updated_at : Option Nat
  created_by : Option String
  updated_by : Option String
deriving DecidableEq

/-- Rows of `auth.user_roles` (lines 89-96): no `uuid`, no
`created_at`/`updated_at` columns. -/
structure UserRoleRow where
  id : Nat
  user_id : Option Nat
  role : Option String
  granted_by : Option Nat
  granted_at : Option Nat
  tenant_id : Option Nat
deriving DecidableEq

/-- Rows of `clients.companies` (lines 105-131). -/
structure CompanyRow where
  id : Nat
  uuid : Option Nat
  name : Option String
  legal_name : Option String
  industry : Option String
  company_type : Option String
  website : Option String
  phone : Option String
  email : Option String
  tax_id : Option String
  vat_number : Option String
  registration_number : Option String
  founded_year : Option Int
  employee_count : Option Int
  annual_revenue : Option Int
  currency : Option String
  status : Option String
  source : Option String
  assigned_to : Option Nat
  tenant_id : Option Nat
  created_at : Option Nat
  updated_at : Option Nat
  created_by : Option String
  updated_by : Option String
  is_active : Option Bool
deriving DecidableEq

/-- Rows of `clients.company_addresses` (lines 134-151). -/
structure CompanyAddressRow where
  id : Nat
  uuid : Option Nat
  company_id : Option Nat
  address_type : Option String
  street_address : Option String
  city : Option String
  state_province : Option String
  postal_code : Option String
  country : Option String
  is_primary : Option Bool
  tenant_id : Option Nat
  created_at : Option Nat
  updated_at : Option Nat
  created_by : Option String
  updated_by : Option String
  is_active : Option Bool
deriving DecidableEq

/-- Rows of `clients.contacts` (lines 154-176). -/
structure ContactRow where
  id : Nat
  uuid : Option Nat
  company_id : Option Nat
  first_name : Option String
  last_name : Option String
  title : Option String
  department : Option String
  email : Option String
  phone : Option String
  mobile : Option String
  linkedin_url : Option String
  preferred_language : Option String
  preferred_contact_method : Option String
  is_primary : Option Bool
  notes : Option String
  tenant_id : Option Nat
  created_at : Option Nat
  updated_at : Option Nat
  created_by : Option String
  updated_by : Option String
  is_active : Option Bool
deriving DecidableEq

/-- Rows of `deals.deals` (lines 188-213). -/
structure DealRow where
  id : Nat
  uuid : Option Nat
  title : Option String
  description : Option String
  company_id : Option Nat
  contact_id : Option Nat
  stage : Option String
  value : Option Int
  currency : Option String
  probability : Option Int
  expected_close_date : Option Nat
  actual_close_date : Option Nat
  source : Option String
  assigned_to : Option Nat
  status : Option String
  priority : Option String
  tags : Option (List String)
  custom_fields : Option String
  tenant_id : Option Nat
  created_at : Option Nat
  updated_at : Option Nat
  created_by : Option String
  updated_by : Option String
  is_active : Option Bool
deriving DecidableEq

/-- Rows of `deals.deal_activities` (lines 216-233). -/
structure DealActivityRow where
  id : Nat
  uuid : Option Nat
  deal_id : Option Nat
  activity_type : Option String
  subject : Option String
  description : Option String
  activity_date : Option Nat
  duration_minutes : Option Int
  outcome : Option String
  next_action : Option String
  tenant_id : Option Nat
  created_at : Option Nat
  updated_at : Option Nat
  created_by : Option String
  updated_by : Option String
  is_active : Option Bool
deriving DecidableEq

/-- Rows of `orders.orders` (lines 244-271). -/
structure OrderRow where
  id : Nat
  uuid : Option Nat
  order_number : Option String
  deal_id : Option Nat
  company_id : Option Nat
  contact_id : Option Nat
  status : Option String
  order_date : Option Nat
  required_date : Option Nat
  shipped_date : Option Nat
  delivery_date : Option Nat
  total_amount : Option Int
  currency : Option String
  payment_terms : Option String
  payment_status : Option String
  shipping_method : Option String
  shipping_address : Option String
  billing_address : Option String
  notes : Option String
  custom_fields : Option String
  tenant_id : Option Nat
  created_at : Option Nat
  updated_at : Option Nat
  created_by : Option String
  updated_by : Option String
  is_active : Option Bool
deriving DecidableEq

/-- Rows of `orders.order_items` (lines 274-293). -/
structure OrderItemRow where
  id : Nat
  uuid : Option Nat
  order_id : Option Nat
  product_code : Option String
  product_name : Option String
  description : Option String
  quantity : Option Int
  unit_price : Option Int
  total_price : Option Int
  unit_of_measure : Option String
  weight : Option Int
  dimensions : Option String
  tenant_id : Option Nat
  created_at : Option Nat
  updated_at : Option Nat
  created_by : Option String
  updated_by : Option String
  is_active : Option Bool
deriving DecidableEq

/-- Rows of `documents.documents` (lines 304-330). -/
structure DocumentRow where
  id : Nat
  uuid : Option Nat
  filename : Option String
  original_filename : Option String
  file_path : Option String
  file_size : Option Int
  mime_type : Option String
  file_hash : Option String
  document_type : Option String
  category : Option String
  entity_type : Option String
  entity_id : Option Nat
  title : Option String
  description : Option String
  tags : Option (List String)
  is_public : Option Bool
  access_level : Option String
  version : Option Int
  parent_document_id : Option Nat
  tenant_id : Option Nat
  created_at : Option Nat
  updated_at : Option Nat
  created_by : Option String
  updated_by : Option String
  is_active : Option Bool
deriving DecidableEq

/-- The whole relational database: one list of rows per table of the
initialization script. -/
structure DBState where
  audit_logs : List AuditLogRow
  tenants : List TenantRow
  users : List UserRow
  user_roles : List UserRoleRow
  companies : List CompanyRow
  company_addresses : List CompanyAddressRow
  contacts : List ContactRow
  deals : List DealRow
  deal_activities : List DealActivityRow
  orders : List OrderRow
  order_items : List OrderItemRow
  documents : List DocumentRow
deriving DecidableEq

def emptyDB : DBState :=
  { audit_logs := [], tenants := [], users := [], user_roles := []
    companies := [], company_addresses := [], contacts := [], deals := []
    deal_activities := [], orders := [], order_items := [], documents := [] }

def tenantUuids (s : DBState) : List (Option Nat) := s.tenants.map (fun r => r.uuid)
def userUuids (s : DBState) : List (Option Nat) := s.users.map (fun r => r.uuid)
def companyUuids (s : DBState) : List (Option Nat) := s.companies.map (fun r => r.uuid)
def contactUuids (s : DBState) : List (Option Nat) := s.contacts.map (fun r => r.uuid)
def dealUuids (s : DBState) : List (Option Nat) := s.deals.map (fun r => r.uuid)
def orderUuids (s : DBState) : List (Option Nat) := s.orders.map (fun r => r.uuid)

/-! ## Declared constraints, table by table

Each `...RowOk` checks the row-local constraints of one table: the
tenant reference first, then foreign keys, `NOT NULL`s and `VARCHAR`
length bounds.  Each `...WF` adds the table-wide `UNIQUE` constraints
(`id` is the `SERIAL PRIMARY KEY`, `uuid` is declared `UNIQUE`, plus
the extra unique columns `tenants.slug`, `auth.users.email`,
`orders.order_number`). -/

def auditLogRowOk (r : AuditLogRow) : Bool :=
  notNull r.tenant_id &&
  notNull r.entity_type && notNull r.entity_id && notNull r.action &&
  lenOk 100 r.entity_type && lenOk 50 r.action &&
  lenOk 100 r.created_by && lenOk 100 r.updated_by

def auditLogsWF (l : List AuditLogRow) : Bool :=
  allDistinct (l.map (fun r => r.id)) &&
  optsDistinct (l.map (fun r => r.uuid)) &&
  l.all auditLogRowOk

def tenantRowOk (r : TenantRow) : Bool :=
  notNull r.name && notNull r.slug &&
  lenOk 255 r.name && lenOk 100 r.slug && lenOk 255 r.domain &&
  lenOk 50 r.subscription_plan && lenOk 50 r.subscription_status &&
  lenOk 100 r.created_by && lenOk 100 r.updated_by

def tenantsWF (l : List TenantRow) : Bool :=
  allDistinct (l.map (fun r => r.id)) &&
  optsDistinct (l.map (fun r => r.uuid)) &&
  optsDistinct (l.map (fun r => r.slug)) &&
  l.all tenantRowOk

def userRowOk (tenantU : List (Option Nat)) (r : UserRow) : Bool :=
  notNull r.tenant_id && fkOk tenantU r.tenant_id &&
  notNull r.email && notNull r.password_hash &&
  lenOk 255 r.email && lenOk 255 r.password_hash &&
  lenOk 100 r.first_name && lenOk 100 r.last_name && lenOk 20 r.phone &&
  lenOk 10 r.language && lenOk 50 r.timezone &&
  lenOk 100 r.created_by && lenOk 100 r.updated_by

def usersWF (tenantU : List (Option Nat)) (l : List UserRow) : Bool :=
  allDistinct (l.map (fun r => r.id)) &&
  optsDistinct (l.map (fun r => r.uuid)) &&
  optsDistinct (l.map (fun r => r.email)) &&
  l.all (userRowOk tenantU)

def userRoleRowOk (tenantU userU : List (Option Nat)) (r : UserRoleRow) : Bool :=
  notNull r.tenant_id && fkOk tenantU r.tenant_id &&
  notNull r.user_id && fkOk userU r.user_id &&
  fkOk userU r.granted_by &&
  notNull r.role && lenOk 50 r.role

def userRolesWF (tenantU userU : List (Option Nat)) (l : List UserRoleRow) : Bool :=
  allDistinct (l.map (fun r => r.id)) &&
  l.all (userRoleRowOk tenantU userU)

def companyRowOk (tenantU userU : List (Option Nat)) (r : CompanyRow) : Bool :=
  notNull r.tenant_id && fkOk tenantU r.tenant_id &&
  fkOk userU r.assigned_to &&
  notNull r.name &&
  lenOk 255 r.name && lenOk 255 r.legal_name && lenOk 100 r.industry &&
  lenOk 50 r.company_type && lenOk 255 r.website && lenOk 20 r.phone &&
  lenOk 255 r.email && lenOk 100 r.tax_id && lenOk 100 r.vat_number &&
  lenOk 100 r.registration_number && lenOk 3 r.currency &&
  lenOk 50 r.status && lenOk 100 r.source &&
  lenOk 100 r.created_by && lenOk 100 r.updated_by

def companiesWF (tenantU userU : List (Option Nat)) (l : List CompanyRow) : Bool :=
  allDistinct (l.map (fun r => r.id)) &&
  optsDistinct (l.map (fun r => r.uuid)) &&
  l.all (companyRowOk tenantU userU)

def companyAddressRowOk (tenantU companyU : List (Option Nat)) (r : CompanyAddressRow) : Bool :=
  notNull r.tenant_id && fkOk tenantU r.tenant_id &&
  notNull r.company_id && fkOk companyU r.company_id &&
  lenOk 50 r.address_type && lenOk 100 r.city && lenOk 100 r.state_province &&
  lenOk 20 r.postal_code && lenOk 100 r.country &&
  lenOk 100 r.created_by && lenOk 100 r.updated_by

def companyAddressesWF (tenantU companyU : List (Option Nat))
    (l : List CompanyAddressRow) : Bool :=
  allDistinct (l.map (fun r => r.id)) &&
  optsDistinct (l.map (fun r => r.uuid)) &&
  l.all (companyAddressRowOk tenantU companyU)

def contactRowOk (tenantU companyU : List (Option Nat)) (r : ContactRow) : Bool :=
  notNull r.tenant_id && fkOk tenantU r.tenant_id &&
  fkOk companyU r.company_id &&
  notNull r.first_name && notNull r.last_name &&
  lenOk 100 r.first_name && lenOk 100 r.last_name && lenOk 100 r.title &&
  lenOk 100 r.department && lenOk 255 r.email && lenOk 20 r.phone &&
  lenOk 20 r.mobile && lenOk 255 r.linkedin_url &&
  lenOk 10 r.preferred_language && lenOk 50 r.preferred_contact_method &&
  lenOk 100 r.created_by && lenOk 100 r.updated_by

def contactsWF (tenantU companyU : List (Option Nat)) (l : List ContactRow) : Bool :=
  allDistinct (l.map (fun r => r.id)) &&
  optsDistinct (l.map (fun r => r.uuid)) &&
  l.all (contactRowOk tenantU companyU)

def dealRowOk (tenantU companyU contactU userU : List (Option Nat)) (r : DealRow) : Bool :=
  notNull r.tenant_id && fkOk tenantU r.tenant_id &&
  fkOk companyU r.company_id && fkOk contactU r.contact_id &&
  fkOk userU r.assigned_to &&
  notNull r.title &&
  lenOk 255 r.title && lenOk 50 r.stage && lenOk 3 r.currency &&
  lenOk 100 r.source && lenOk 50 r.status && lenOk 20 r.priority &&
  lenOk 100 r.created_by && lenOk 100 r.updated_by

def dealsWF (tenantU companyU contactU userU : List (Option Nat))
    (l : List DealRow) : Bool :=
  allDistinct (l.map (fun r => r.id)) &&
  optsDistinct (l.map (fun r => r.uuid)) &&
  l.all (dealRowOk tenantU companyU contactU userU)

def dealActivityRowOk (tenantU dealU : List (Option Nat)) (r : DealActivityRow) : Bool :=
  notNull r.tenant_id && fkOk tenantU r.tenant_id &&
  notNull r.deal_id && fkOk dealU r.deal_id &&
  notNull r.activity_type &&
  lenOk 50 r.activity_type && lenOk 255 r.subject && lenOk 100 r.outcome &&
  lenOk 100 r.created_by && lenOk 100 r.updated_by

def dealActivitiesWF (tenantU dealU : List (Option Nat))
    (l : List DealActivityRow) : Bool :=
  allDistinct (l.map (fun r => r.id)) &&
  optsDistinct (l.map (fun r => r.uuid)) &&
  l.all (dealActivityRowOk tenantU dealU)

def orderRowOk (tenantU dealU companyU contactU : List (Option Nat)) (r : OrderRow) : Bool :=
  notNull r.tenant_id && fkOk tenantU r.tenant_id &&
  notNull r.order_number &&
  fkOk dealU r.deal_id &&
  notNull r.company_id && fkOk companyU r.company_id &&
  fkOk contactU r.contact_id &&
  lenOk 100 r.order_number && lenOk 50 r.status && lenOk 3 r.currency &&
  lenOk 100 r.payment_terms && lenOk 50 r.payment_status &&
  lenOk 100 r.shipping_method &&
  lenOk 100 r.created_by && lenOk 100 r.updated_by

def ordersWF (tenantU dealU companyU contactU : List (Option Nat))
    (l : List OrderRow) : Bool :=
  allDistinct (l.map (fun r => r.id)) &&
  optsDistinct (l.map (fun r => r.uuid)) &&
  optsDistinct (l.map (fun r => r.order_number)) &&
  l.all (orderRowOk tenantU dealU companyU contactU)

def orderItemRowOk (tenantU orderU : List (Option Nat)) (r : OrderItemRow) : Bool :=
  notNull r.tenant_id && fkOk tenantU r.tenant_id &&
  notNull r.order_id && fkOk orderU r.order_id &&
  notNull r.product_name && notNull r.quantity &&
  notNull r.unit_price && notNull r.total_price &&
  lenOk 100 r.product_code && lenOk 255 r.product_name &&
  lenOk 20 r.unit_of_measure &&
  lenOk 100 r.created_by && lenOk 100 r.updated_by

def orderItemsWF (tenantU orderU : List (Option Nat))
    (l : List OrderItemRow) : Bool :=
  allDistinct (l.map (fun r => r.id)) &&
  optsDistinct (l.map (fun r => r.uuid)) &&
  l.all (orderItemRowOk tenantU orderU)

def documentRowOk (tenantU docU : List (Option Nat)) (r : DocumentRow) : Bool :=
  notNull r.tenant_id && fkOk tenantU r.tenant_id &&
  fkOk docU r.parent_document_id &&
  notNull r.filename && notNull r.original_filename &&
  lenOk 255 r.filename && lenOk 255 r.original_filename &&
  lenOk 500 r.file_path && lenOk 100 r.mime_type && lenOk 64 r.file_hash &&
  lenOk 50 r.document_type && lenOk 100 r.category && lenOk 50 r.entity_type &&
  lenOk 255 r.title && lenOk 20 r.access_level &&
  lenOk 100 r.created_by && lenOk 100 r.updated_by

def documentsWF (tenantU : List (Option Nat)) (l : List DocumentRow) : Bool :=
  allDistinct (l.map (fun r => r.id)) &&
  optsDistinct (l.map (fun r => r.uuid)) &&
  l.all (documentRowOk tenantU (l.map (fun r => r.uuid)))

/-- All constraints declared by `src/01_init_database.sql` at once.  A
database state can exist under the schema exactly when `WF` holds. -/
def WF (s : DBState) : Bool :=
  auditLogsWF s.audit_logs &&
  tenantsWF s.tenants &&
  usersWF (tenantUuids s) s.users &&
  userRolesWF (tenantUuids s) (userUuids s) s.user_roles &&
  companiesWF (tenantUuids s) (userUuids s) s.companies &&
  companyAddressesWF (tenantUuids s) (companyUuids s) s.company_addresses &&
  contactsWF (tenantUuids s) (companyUuids s) s.contacts &&
  dealsWF (tenantUuids s) (companyUuids s) (contactUuids s) (userUuids s) s.deals &&
  dealActivitiesWF (tenantUuids s) (dealUuids s) s.deal_activities &&
  ordersWF (tenantUuids s) (dealUuids s) (companyUuids s) (contactUuids s) s.orders &&
  orderItemsWF (tenantUuids s) (orderUuids s) s.order_items &&
  documentsWF (tenantUuids s) s.documents

/-- A DML statement commits its candidate result state exactly when the
declared constraints still hold on it; otherwise it fails and changes
nothing. -/
def guardWF (s : DBState) : Option DBState :=
  if WF s then some s else none

/-! ## Permitted operations (SQL DML against the schema)

`insertX s r` is `INSERT INTO x VALUES r`; `updateX s k r now` is
`UPDATE x SET (all columns) = r WHERE id = k` executed at instant
`now` (the `BEFORE UPDATE` trigger overwrites `updated_at` with `now`
on every table that has the trigger); `deleteX s k` is
`DELETE FROM x WHERE id = k`.  Each returns `none` when PostgreSQL
would report a constraint violation (or when the targeted row does not
exist, in which case the statement is a no-op). -/

def insertAuditLog (s : DBState) (r : AuditLogRow) : Option DBState :=
  guardWF { s with audit_logs := s.audit_logs ++ [r] }

def insertTenant (s : DBState) (r : TenantRow) : Option DBState :=
  guardWF { s with tenants := s.tenants ++ [r] }

def insertUser (s : DBState) (r : UserRow) : Option DBState :=
  guardWF { s with users := s.users ++ [r] }

def insertUserRole (s : DBState) (r : UserRoleRow) : Option DBState :=
  guardWF { s with user_roles := s.user_roles ++ [r] }

def insertCompany (s : DBState) (r : CompanyRow) : Option DBState :=
  guardWF { s with companies := s.companies ++ [r] }

def insertCompanyAddress (s : DBState) (r : CompanyAddressRow) : Option DBState :=
  guardWF { s with company_addresses := s.company_addresses ++ [r] }

def insertContact (s : DBState) (r : ContactRow) : Option DBState :=
  guardWF { s with contacts := s.contacts ++ [r] }

def insertDeal (s : DBState) (r : DealRow) : Option DBState :=
  guardWF { s with deals := s.deals ++ [r] }

def insertDealActivity (s : DBState) (r : DealActivityRow) : Option DBState :=
  guardWF { s with deal_activities := s.deal_activities ++ [r] }

def insertOrder (s : DBState) (r : OrderRow) : Option DBState :=
  guardWF { s with orders := s.orders ++ [r] }

def insertOrderItem (s : DBState) (r : OrderItemRow) : Option DBState :=
  guardWF { s with order_items := s.order_items ++ [r] }

def insertDocument (s : DBState) (r : DocumentRow) : Option DBState :=
  guardWF { s with documents := s.documents ++ [r] }

def updateAuditLog (s : DBState) (k : Nat) (r : AuditLogRow) (now : Nat) : Option DBState :=
  if s.audit_logs.any (fun x => x.id == k) then
    guardWF { s with audit_logs :=
      (s.audit_logs.map (fun x => if x.id == k then { r with updated_at := some now } else x)) }
  else none

def updateTenant (s : DBState) (k : Nat) (r : TenantRow) (now : Nat) : Option DBState :=
  if s.tenants.any (fun x => x.id == k) then
    guardWF { s with tenants :=
      (s.tenants.map (fun x => if x.id == k then { r with updated_at := some now } else x)) }
  else none

def updateUser (s : DBState) (k : Nat) (r : UserRow) (now : Nat) : Option DBState :=
  if s.users.any (fun x => x.id == k) then
    guardWF { s with users :=
      (s.users.map (fun x => if x.id == k then { r with updated_at := some now } else x)) }
  else none

def updateUserRole (s : DBState) (k : Nat) (r : UserRoleRow) : Option DBState :=
  if s.user_roles.any (fun x => x.id == k) then
    guardWF { s with user_roles :=
      (s.user_roles.map (fun x => if x.id == k then r else x)) }
  else none

def updateCompany (s : DBState) (k : Nat) (r : CompanyRow) (now : Nat) : Option DBState :=
  if s.companies.any (fun x => x.id == k) then
    guardWF { s with companies :=
      (s.companies.map (fun x => if x.id == k then { r with updated_at := some now } else x)) }
  else none

def updateCompanyAddress (s : DBState) (k : Nat) (r : CompanyAddressRow) (now : Nat) :
    Option DBState :=
  if s.company_addresses.any (fun x => x.id == k) then
    guardWF { s with company_addresses :=
      (s.company_addresses.map (fun x => if x.id == k then { r with updated_at := some now } else x)) }
  else none

def updateContact (s : DBState) (k : Nat) (r : ContactRow) (now : Nat) : Option DBState :=
  if s.contacts.any (fun x => x.id == k) then
    guardWF { s with contacts :=
      (s.contacts.map (fun x => if x.id == k then { r with updated_at := some now } else x)) }
  else none

def updateDeal (s : DBState) (k : Nat) (r : DealRow) (now : Nat) : Option DBState :=
  if s.deals.any (fun x => x.id == k) then
    guardWF { s with deals :=
      (s.deals.map (fun x => if x.id == k then { r with updated_at := some now } else x)) }
  else none

def updateDealActivity (s : DBState) (k : Nat) (r : DealActivityRow) (now : Nat) :
    Option DBState :=
  if s.deal_activities.any (fun x => x.id == k) then
    guardWF { s with deal_activities :=
      (s.deal_activities.map (fun x => if x.id == k then { r with updated_at := some now } else x)) }
  else none

def updateOrder (s : DBState) (k : Nat) (r : OrderRow) (now : Nat) : Option DBState :=
  if s.orders.any (fun x => x.id == k) then
    guardWF { s with orders :=
      (s.orders.map (fun x => if x.id == k then { r with updated_at := some now } else x)) }
  else none

def updateOrderItem (s : DBState) (k : Nat) (r : OrderItemRow) (now : Nat) : Option DBState :=
  if s.order_items.any (fun x => x.id == k) then
    guardWF { s with order_items :=
      (s.order_items.map (fun x => if x.id == k then { r with updated_at := some now } else x)) }
  else none

def updateDocument (s : DBState) (k : Nat) (r : DocumentRow) (now : Nat) : Option DBState :=
  if s.documents.any (fun x => x.id == k) then
    guardWF { s with documents :=
      (s.documents.map (fun x => if x.id == k then { r with updated_at := some now } else x)) }
  else none

def deleteAuditLog (s : DBState) (k : Nat) : Option DBState :=
  if s.audit_logs.any (fun x => x.id == k) then
    guardWF { s with audit_logs := (s.audit_logs.filter (fun x => x.id != k)) }
  else none

def deleteTenant (s : DBState) (k : Nat) : Option DBState :=
  if s.tenants.any (fun x => x.id == k) then
    guardWF { s with tenants := (s.tenants.filter (fun x => x.id != k)) }
  else none

def deleteUser (s : DBState) (k : Nat) : Option DBState :=
  if s.users.any (fun x => x.id == k) then
    guardWF { s with users := (s.users.filter (fun x => x.id != k)) }
  else none

def deleteUserRole (s : DBState) (k : Nat) : Option DBState :=
  if s.user_roles.any (fun x => x.id == k) then
    guardWF { s with user_roles := (s.user_roles.filter (fun x => x.id != k)) }
  else none

def deleteCompany (s : DBState) (k : Nat) : Option DBState :=
  if s.companies.any (fun x => x.id == k) then
    guardWF { s with companies := (s.companies.filter (fun x => x.id != k)) }
  else none

def deleteCompanyAddress (s : DBState) (k : Nat) : Option DBState :=
  if s.company_addresses.any (fun x => x.id == k) then
    guardWF { s with company_addresses := (s.company_addresses.filter (fun x => x.id != k)) }
  else none

def deleteContact (s : DBState) (k : Nat) : Option DBState :=
  if s.contacts.any (fun x => x.id == k) then
    guardWF { s with contacts := (s.contacts.filter (fun x => x.id != k)) }
  else none

def deleteDeal (s : DBState) (k : Nat) : Option DBState :=
  if s.deals.any (fun x => x.id == k) then
    guardWF { s with deals := (s.deals.filter (fun x => x.id != k)) }
  else none

def deleteDealActivity (s : DBState) (k : Nat) : Option DBState :=
  if s.deal_activities.any (fun x => x.id == k) then
    guardWF { s with deal_activities := (s.deal_activities.filter (fun x => x.id != k)) }
  else none

def deleteOrder (s : DBState) (k : Nat) : Option DBState :=
  if s.orders.any (fun x => x.id == k) then
    guardWF { s with orders := (s.orders.filter (fun x => x.id != k)) }
  else none

def deleteOrderItem (s : DBState) (k : Nat) : Option DBState :=
  if s.order_items.any (fun x => x.id == k) then
    guardWF { s with order_items := (s.order_items.filter (fun x => x.id != k)) }
  else none

def deleteDocument (s : DBState) (k : Nat) : Option DBState :=
  if s.documents.any (fun x => x.id == k) then
    guardWF { s with documents := (s.documents.filter (fun x => x.id != k)) }
  else none

/-- One permitted DML statement. -/
inductive Step : DBState → DBState → Prop where
  | insAudit {s s' : DBState} (r : AuditLogRow) : insertAuditLog s r = some s' → Step s s'
  | insTenant {s s' : DBState} (r : TenantRow) : insertTenant s r = some s' → Step s s'
  | insUser {s s' : DBState} (r : UserRow) : insertUser s r = some s' → Step s s'
  | insUserRole {s s' : DBState} (r : UserRoleRow) : insertUserRole s r = some s' → Step s s'
  | insCompany {s s' : DBState} (r : CompanyRow) : insertCompany s r = some s' → Step s s'
  | insCompanyAddress {s s' : DBState} (r : CompanyAddressRow) :
      insertCompanyAddress s r = some s' → Step s s'
  | insContact {s s' : DBState} (r : ContactRow) : insertContact s r = some s' → Step s s'
  | insDeal {s s' : DBState} (r : DealRow) : insertDeal s r = some s' → Step s s'
  | insDealActivity {s s' : DBState} (r : DealActivityRow) :
      insertDealActivity s r = some s' → Step s s'
  | insOrder {s s' : DBState} (r : OrderRow) : insertOrder s r = some s' → Step s s'
  | insOrderItem {s s' : DBState} (r : OrderItemRow) : insertOrderItem s r = some s' → Step s s'
  | insDocument {s s' : DBState} (r : DocumentRow) : insertDocument s r = some s' → Step s s'
  | updAudit {s s' : DBState} (k : Nat) (r : AuditLogRow) (now : Nat) :
      updateAuditLog s k r now = some s' → Step s s'
  | updTenant {s s' : DBState} (k : Nat) (r : TenantRow) (now : Nat) :
      updateTenant s k r now = some s' → Step s s'
  | updUser {s s' : DBState} (k : Nat) (r : UserRow) (now : Nat) :
      updateUser s k r now = some s' → Step s s'
  | updUserRole {s s' : DBState} (k : Nat) (r : UserRoleRow) :
      updateUserRole s k r = some s' → Step s s'
  | updCompany {s s' : DBState} (k : Nat) (r : CompanyRow) (now : Nat) :
      updateCompany s k r now = some s' → Step s s'
  | updCompanyAddress {s s' : DBState} (k : Nat) (r : CompanyAddressRow) (now : Nat) :
      updateCompanyAddress s k r now = some s' → Step s s'
  | updContact {s s' : DBState} (k : Nat) (r : ContactRow) (now : Nat) :
      updateContact s k r now = some s' → Step s s'
  | updDeal {s s' : DBState} (k : Nat) (r : DealRow) (now : Nat) :
      updateDeal s k r now = some s' → Step s s'
  | updDealActivity {s s' : DBState} (k : Nat) (r : DealActivityRow) (now : Nat) :
      updateDealActivity s k r now = some s' → Step s s'
  | updOrder {s s' : DBState} (k : Nat) (r : OrderRow) (now : Nat) :
      updateOrder s k r now = some s' → Step s s'
  | updOrderItem {s s' : DBState} (k : Nat) (r : OrderItemRow) (now : Nat) :
      updateOrderItem s k r now = some s' → Step s s'
  | updDocument {s s' : DBState} (k : Nat) (r : DocumentRow) (now : Nat) :
      updateDocument s k r now = some s' → Step s s'
  | delAudit {s s' : DBState} (k : Nat) : deleteAuditLog s k = some s' → Step s s'
  | delTenant {s s' : DBState} (k : Nat) : deleteTenant s k = some s' → Step s s'
  | delUser {s s' : DBState} (k : Nat) : deleteUser s k = some s' → Step s s'
  | delUserRole {s s' : DBState} (k : Nat) : deleteUserRole s k = some s' → Step s s'
  | delCompany {s s' : DBState} (k : Nat) : deleteCompany s k = some s' → Step s s'
  | delCompanyAddress {s s' : DBState} (k : Nat) : deleteCompanyAddress s k = some s' → Step s s'
  | delContact {s s' : DBState} (k : Nat) : deleteContact s k = some s' → Step s s'
  | delDeal {s s' : DBState} (k : Nat) : deleteDeal s k = some s' → Step s s'
  | delDealActivity {s s' : DBState} (k : Nat) : deleteDealActivity s k = some s' → Step s s'
  | delOrder {s s' : DBState} (k : Nat) : deleteOrder s k = some s' → Step s s'
  | delOrderItem {s s' : DBState} (k : Nat) : deleteOrderItem s k = some s' → Step s s'
  | delDocument {s s' : DBState} (k : Nat) : deleteDocument s k = some s' → Step s s'

/-- States producible from the freshly initialized (empty) database by
permitted operations. -/
inductive Reachable : DBState → Prop where
  | init : Reachable emptyDB
  | step {s s' : DBState} : Reachable s → Step s s' → Reachable s'

/-! ## Basic metatheory: every permitted operation preserves `WF` -/

theorem guardWF_eq_some {t s' : DBState} (h : guardWF t = some s') :
    WF s' = true ∧ s' = t := by
  unfold guardWF at h
  split at h
  · obtain rfl := Option.some.inj h
    constructor
    · assumption
    · rfl
  · exact Option.noConfusion h

theorem step_wf {s s' : DBState} (h : Step s s') : WF s' = true := by
  cases h with
  | insAudit r h => exact (guardWF_eq_some h).1
  | insTenant r h => exact (guardWF_eq_some h).1
  | insUser r h => exact (guardWF_eq_some h).1
  | insUserRole r h => exact (guardWF_eq_some h).1
  | insCompany r h => exact (guardWF_eq_some h).1
  | insCompanyAddress r h => exact (guardWF_eq_some h).1
  | insContact r h => exact (guardWF_eq_some h).1
  | insDeal r h => exact (guardWF_eq_some h).1
  | insDealActivity r h => exact (guardWF_eq_some h).1
  | insOrder r h => exact (guardWF_eq_some h).1
  | insOrderItem r h => exact (guardWF_eq_some h).1
  | insDocument r h => exact (guardWF_eq_some h).1
  | updAudit k r now h =>
      unfold updateAuditLog at h
      split at h
      · exact (guardWF_eq_some h).1
      · exact Option.noConfusion h
  | updTenant k r now h =>
      unfold updateTenant at h
      split at h
      · exact (guardWF_eq_some h).1
      · exact Option.noConfusion h
  | updUser k r now h =>
      unfold updateUser at h
      split at h
      · exact (guardWF_eq_some h).1
      · exact Option.noConfusion h
  | updUserRole k r h =>
      unfold updateUserRole at h
      split at h
      · exact (guardWF_eq_some h).1
      · exact Option.noConfusion h
  | updCompany k r now h =>
      unfold updateCompany at h
      split at h
      · exact (guardWF_eq_some h).1
      · exact Option.noConfusion h
  | updCompanyAddress k r now h =>
      unfold updateCompanyAddress at h
      split at h
      · exact (guardWF_eq_some h).1
      · exact Option.noConfusion h
  | updContact k r now h =>
      unfold updateContact at h
      split at h
      · exact (guardWF_eq_some h).1
      · exact Option.noConfusion h
  | updDeal k r now h =>
      unfold updateDeal at h
      split at h
      · exact (guardWF_eq_some h).1
      · exact Option.noConfusion h
  | updDealActivity k r now h =>
      unfold updateDealActivity at h
      split at h
      · exact (guardWF_eq_some h).1
      · exact Option.noConfusion h
  | updOrder k r now h =>
      unfold updateOrder at h
      split at h
      · exact (guardWF_eq_some h).1
      · exact Option.noConfusion h
  | updOrderItem k r now h =>
      unfold updateOrderItem at h
      split at h
      · exact (guardWF_eq_some h).1
      · exact Option.noConfusion h
  | updDocument k r now h =>
      unfold updateDocument at h
      split at h
      · exact (guardWF_eq_some h).1
      · exact Option.noConfusion h
  | delAudit k h =>
      unfold deleteAuditLog at h
      split at h
      · exact (guardWF_eq_some h).1
      · exact Option.noConfusion h
  | delTenant k h =>
      unfold deleteTenant at h
      split at h
      · exact (guardWF_eq_some h).1
      · exact Option.noConfusion h
  | delUser k h =>
      unfold deleteUser at h
      split at h
      · exact (guardWF_eq_some h).1
      · exact Option.noConfusion h
  | delUserRole k h =>
      unfold deleteUserRole at h
      split at h
      · exact (guardWF_eq_some h).1
      · exact Option.noConfusion h
  | delCompany k h =>
      unfold deleteCompany at h
      split at h
      · exact (guardWF_eq_some h).1
      · exact Option.noConfusion h
  | delCompanyAddress k h =>
      unfold deleteCompanyAddress at h
      split at h
      · exact (guardWF_eq_some h).1
      · exact Option.noConfusion h
  | delContact k h =>
      unfold deleteContact at h
      split at h
      · exact (guardWF_eq_some h).1
      · exact Option.noConfusion h
  | delDeal k h =>
      unfold deleteDeal at h
      split at h
      · exact (guardWF_eq_some h).1
      · exact Option.noConfusion h
  | delDealActivity k h =>
      unfold deleteDealActivity at h
      split at h
      · exact (guardWF_eq_some h).1
      · exact Option.noConfusion h
  | delOrder k h =>
      unfold deleteOrder at h
      split at h
      · exact (guardWF_eq_some h).1
      · exact Option.noConfusion h
  | delOrderItem k h =>
      unfold deleteOrderItem at h
      split at h
      · exact (guardWF_eq_some h).1
      · exact Option.noConfusion h
  | delDocument k h =>
      unfold deleteDocument at h
      split at h
      · exact (guardWF_eq_some h).1
      · exact Option.noConfusion h

/-- Every state the permitted operations can produce satisfies every
constraint declared by the schema. -/
theorem reachable_wf {s : DBState} (h : Reachable s) : WF s = true := by
  induction h with
  | init => decide
  | step _ hstep _ => exact step_wf hstep

theorem wf_unpack {s : DBState} (h : WF s = true) :
    auditLogsWF s.audit_logs = true ∧
    tenantsWF s.tenants = true ∧
    usersWF (tenantUuids s) s.users = true ∧
    userRolesWF (tenantUuids s) (userUuids s) s.user_roles = true ∧
    companiesWF (tenantUuids s) (userUuids s) s.companies = true ∧
    companyAddressesWF (tenantUuids s) (companyUuids s) s.company_addresses = true ∧
    contactsWF (tenantUuids s) (companyUuids s) s.contacts = true ∧
    dealsWF (tenantUuids s) (companyUuids s) (contactUuids s) (userUuids s) s.deals = true ∧
    dealActivitiesWF (tenantUuids s) (dealUuids s) s.deal_activities = true ∧
    ordersWF (tenantUuids s) (dealUuids s) (companyUuids s) (contactUuids s) s.orders = true ∧
    orderItemsWF (tenantUuids s) (orderUuids s) s.order_items = true ∧
    documentsWF (tenantUuids s) s.documents = true := by
  simp only [WF, Bool.and_eq_true] at h
  tauto

theorem all_mono {α : Type} {p q : α → Bool} {l : List α}
    (h : l.all p = true) (himp : ∀ x, p x = true → q x = true) : l.all q = true := by
  simp only [List.all_eq_true] at h ⊢
  exact fun x hx => himp x (h x hx)

/-! ## Consequences of the declared constraints -/

/-- Every row of every tenant-scoped table has a present (non-NULL)
`tenant_id`. -/
def tenantNonNullAll (s : DBState) : Bool :=
  s.audit_logs.all (fun r => notNull r.tenant_id) &&
  s.users.all (fun r => notNull r.tenant_id) &&
  s.user_roles.all (fun r => notNull r.tenant_id) &&
  s.companies.all (fun r => notNull r.tenant_id) &&
  s.company_addresses.all (fun r => notNull r.tenant_id) &&
  s.contacts.all (fun r => notNull r.tenant_id) &&
  s.deals.all (fun r => notNull r.tenant_id) &&
  s.deal_activities.all (fun r => notNull r.tenant_id) &&
  s.orders.all (fun r => notNull r.tenant_id) &&
  s.order_items.all (fun r => notNull r.tenant_id) &&
  s.documents.all (fun r => notNull r.tenant_id)

theorem wf_tenant_non_null {s : DBState} (h : WF s = true) :
    tenantNonNullAll s = true := by
  obtain ⟨h1, h2, h3, h4, h5, h6, h7, h8, h9, h10, h11, h12⟩ := wf_unpack h
  simp only [auditLogsWF, Bool.and_eq_true] at h1
  simp only [usersWF, Bool.and_eq_true] at h3
  simp only [userRolesWF, Bool.and_eq_true] at h4
  simp only [companiesWF, Bool.and_eq_true] at h5
  simp only [companyAddressesWF, Bool.and_eq_true] at h6
  simp only [contactsWF, Bool.and_eq_true] at h7
  simp only [dealsWF, Bool.and_eq_true] at h8
  simp only [dealActivitiesWF, Bool.and_eq_true] at h9
  simp only [ordersWF, Bool.and_eq_true] at h10
  simp only [orderItemsWF, Bool.and_eq_true] at h11
  simp only [documentsWF, Bool.and_eq_true] at h12
  simp only [tenantNonNullAll, Bool.and_eq_true]
  refine ⟨⟨⟨⟨⟨⟨⟨⟨⟨⟨?_, ?_⟩, ?_⟩, ?_⟩, ?_⟩, ?_⟩, ?_⟩, ?_⟩, ?_⟩, ?_⟩, ?_⟩
  · refine all_mono h1.2 (fun r hr => ?_)
    simp only [auditLogRowOk, Bool.and_eq_true] at hr
    tauto
  · refine all_mono h3.2 (fun r hr => ?_)
    simp only [userRowOk, Bool.and_eq_true] at hr
    tauto
  · refine all_mono h4.2 (fun r hr => ?_)
    simp only [userRoleRowOk, Bool.and_eq_true] at hr
    tauto
  · refine all_mono h5.2 (fun r hr => ?_)
    simp only [companyRowOk, Bool.and_eq_true] at hr
    tauto
  · refine all_mono h6.2 (fun r hr => ?_)
    simp only [companyAddressRowOk, Bool.and_eq_true] at hr
    tauto
  · refine all_mono h7.2 (fun r hr => ?_)
    simp only [contactRowOk, Bool.and_eq_true] at hr
    tauto
  · refine all_mono h8.2 (fun r hr => ?_)
    simp only [dealRowOk, Bool.and_eq_true] at hr
    tauto
  · refine all_mono h9.2 (fun r hr => ?_)
    simp only [dealActivityRowOk, Bool.and_eq_true] at hr
    tauto
  · refine all_mono h10.2 (fun r hr => ?_)
    simp only [orderRowOk, Bool.and_eq_true] at hr
    tauto
  · refine all_mono h11.2 (fun r hr => ?_)
    simp only [orderItemRowOk, Bool.and_eq_true] at hr
    tauto
  · refine all_mono h12.2 (fun r hr => ?_)
    simp only [documentRowOk, Bool.and_eq_true] at hr
    tauto

/-- Every foreign-key value of the child tables named by the spec
resolves to an existing `uuid` of the referenced table. -/
def fkResolvedAll (s : DBState) : Bool :=
  s.contacts.all (fun r => fkOk (companyUuids s) r.company_id) &&
  s.deals.all (fun r => fkOk (companyUuids s) r.company_id &&
    fkOk (contactUuids s) r.contact_id) &&
  s.orders.all (fun r => fkOk (dealUuids s) r.deal_id &&
    fkOk (companyUuids s) r.company_id && fkOk (contactUuids s) r.contact_id) &&
  s.order_items.all (fun r => fkOk (orderUuids s) r.order_id)

theorem wf_fk_resolved {s : DBState} (h : WF s = true) : fkResolvedAll s = true := by
  obtain ⟨h1, h2, h3, h4, h5, h6, h7, h8, h9, h10, h11, h12⟩ := wf_unpack h
  simp only [contactsWF, Bool.and_eq_true] at h7
  simp only [dealsWF, Bool.and_eq_true] at h8
  simp only [ordersWF, Bool.and_eq_true] at h10
  simp only [orderItemsWF, Bool.and_eq_true] at h11
  simp only [fkResolvedAll, Bool.and_eq_true]
  refine ⟨⟨⟨?_, ?_⟩, ?_⟩, ?_⟩
  · refine all_mono h7.2 (fun r hr => ?_)
    simp only [contactRowOk, Bool.and_eq_true] at hr
    tauto
  · refine all_mono h8.2 (fun r hr => ?_)
    simp only [dealRowOk, Bool.and_eq_true] at hr
    simp only [Bool.and_eq_true]
    tauto
  · refine all_mono h10.2 (fun r hr => ?_)
    simp only [orderRowOk, Bool.and_eq_true] at hr
    simp only [Bool.and_eq_true]
    tauto
  · refine all_mono h11.2 (fun r hr => ?_)
    simp only [orderItemRowOk, Bool.and_eq_true] at hr
    tauto

/-- The `orders` facts claimed by the spec: order numbers are pairwise
distinct and present, and the company reference is present. -/
def ordersNumberCompanyInv (s : DBState) : Bool :=
  optsDistinct (s.orders.map (fun r => r.order_number)) &&
  s.orders.all (fun r => notNull r.order_number && notNull r.company_id)

theorem wf_orders_inv {s : DBState} (h : WF s = true) :
    ordersNumberCompanyInv s = true := by
  obtain ⟨h1, h2, h3, h4, h5, h6, h7, h8, h9, h10, h11, h12⟩ := wf_unpack h
  simp only [ordersWF, Bool.and_eq_true] at h10
  simp only [ordersNumberCompanyInv, Bool.and_eq_true]
  refine ⟨h10.1.2, ?_⟩
  refine all_mono h10.2 (fun r hr => ?_)
  simp only [orderRowOk, Bool.and_eq_true] at hr
  simp only [Bool.and_eq_true]
  tauto

/-! ## A concrete run of permitted operations

The run below drives the fresh database through twelve DML statements.
Every statement is accepted by the schema, which is what several of the
counterexamples rest on: the accepted data crosses tenants, duplicates
primary contacts, leaves the deal-stage enumeration, mismatches an
order's company with its deal's company, and finally rewrites an audit
row and a contact's tenant. -/

def exT1 : TenantRow :=
  { id := 1, uuid := some 101, name := some "Acme Export", slug := some "acme"
    domain := none, settings := none, subscription_plan := none
    subscription_status := none, created_at := none, updated_at := none
    created_by := none, updated_by := none, is_active := some true }

def exT2 : TenantRow :=
  { id := 2, uuid := some 102, name := some "Globex Trade", slug := some "globex"
    domain := none, settings := none, subscription_plan := none
    subscription_status := none, created_at := none, updated_at := none
    created_by := none, updated_by := none, is_active := some true }

def exC1 : CompanyRow :=
  { id := 1, uuid := some 201, name := some "Cairo Traders", legal_name := none
    industry := none, company_type := none, website := none, phone := none
    email := none, tax_id := none, vat_number := none
    registration_number := none, founded_year := none, employee_count := none
    annual_revenue := none, currency := none, status := none, source := none
    assigned_to := none, tenant_id := some 101, created_at := none
    updated_at := none, created_by := none, updated_by := none
    is_active := some true }

def exC2 : CompanyRow :=
  { id := 2, uuid := some 202, name := some "Delta Foods", legal_name := none
    industry := none, company_type := none, website := none, phone := none
    email := none, tax_id := none, vat_number := none
    registration_number := none, founded_year := none, employee_count := none
    annual_revenue := none, currency := none, status := none, source := none
    assigned_to := none, tenant_id := some 101, created_at := none
    updated_at := none, created_by := none, updated_by := none
    is_active := some true }

def exK1 : ContactRow :=
  { id := 1, uuid := some 301, company_id := some 201
    first_name := some "Amira", last_name := some "Hassan", title := none
    department := none, email := none, phone := none, mobile := none
    linkedin_url := none, preferred_language := none
    preferred_contact_method := none, is_primary := some true, notes := none
    tenant_id := some 102, created_at := none, updated_at := none
    created_by := none, updated_by := none, is_active := some true }

def exK2 : ContactRow :=
  { id := 2, uuid := some 302, company_id := some 201
    first_name := some "Omar", last_name := some "Saleh", title := none
    department := none, email := none, phone := none, mobile := none
    linkedin_url := none, preferred_language := none
    preferred_contact_method := none, is_primary := some true, notes := none
    tenant_id := some 101, created_at := none, updated_at := none
    created_by := none, updated_by := none, is_active := some true }

def exD1 : DealRow :=
  { id := 1, uuid := some 401, title := some "Bulk cotton", description := none
    company_id := some 201, contact_id := none, stage := some "banana"
    value := none, currency := none, probability := some 150
    expected_close_date := none, actual_close_date := none, source := none
    assigned_to := none, status := none, priority := none, tags := none
    custom_fields := none, tenant_id := some 101, created_at := none
    updated_at := none, created_by := none, updated_by := none
    is_active := some true }

def exO1 : OrderRow :=
  { id := 1, uuid := some 501, order_number := some "SO-1"
    deal_id := some 401, company_id := some 202, contact_id := none
    status := none, order_date := none, required_date := none
    shipped_date := none, delivery_date := none, total_amount := none
    currency := none, payment_terms := none, payment_status := none
    shipping_method := none, shipping_address := none, billing_address := none
    notes := none, custom_fields := none, tenant_id := some 101
    created_at := none, updated_at := none, created_by := none
    updated_by := none, is_active := some true }

def exO2 : OrderRow :=
  { id := 2, uuid := some 502, order_number := some "SO-2"
    deal_id := none, company_id := some 201, contact_id := none
    status := none, order_date := none, required_date := none
    shipped_date := none, delivery_date := none, total_amount := none
    currency := none, payment_terms := none, payment_status := none
    shipping_method := none, shipping_address := none, billing_address := none
    notes := none, custom_fields := none, tenant_id := some 101
    created_at := none, updated_at := none, created_by := none
    updated_by := none, is_active := some true }

def exA1 : AuditLogRow :=
  { id := 1, uuid := some 601, entity_type := some "deal"
    entity_id := some 401, action := some "create", old_values := none
    new_values := none, user_id := none, tenant_id := some 101
    ip_address := none, user_agent := none, created_at := some 0
    created_by := none, updated_at := some 0, updated_by := none
    is_active := some true }

/-- The audit row after the mutating UPDATE: deactivated, and its
`updated_at` rewritten by the trigger to the statement time 5. -/
def exA1upd : AuditLogRow :=
  { exA1 with is_active := some false, updated_at := some 5 }

/-- The second contact after the tenant-moving UPDATE (trigger time 6). -/
def exK2upd : ContactRow :=
  { exK2 with tenant_id := some 102, updated_at := some 6 }

def exS1 : DBState := { emptyDB with tenants := [exT1] }
def exS2 : DBState := { emptyDB with tenants := [exT1, exT2] }
def exS3 : DBState := { exS2 with companies := [exC1] }
def exS4 : DBState := { exS2 with companies := [exC1, exC2] }
def exS5 : DBState := { exS4 with contacts := [exK1] }
def exS6 : DBState := { exS4 with contacts := [exK1, exK2] }
def exS7 : DBState := { exS6 with deals := [exD1] }
def exS8 : DBState := { exS7 with orders := [exO1] }
def exS9 : DBState := { exS7 with orders := [exO1, exO2] }
def exS10 : DBState := { exS9 with audit_logs := [exA1] }
def exS11 : DBState := { exS9 with audit_logs := [exA1upd] }
def exS12 : DBState := { exS11 with contacts := [exK1, exK2upd] }

theorem reachS1 : Reachable exS1 :=
  Reachable.step Reachable.init (Step.insTenant exT1 (by decide))

theorem reachS2 : Reachable exS2 :=
  Reachable.step reachS1 (Step.insTenant exT2 (by decide))

theorem reachS3 : Reachable exS3 :=
  Reachable.step reachS2 (Step.insCompany exC1 (by decide))

theorem reachS4 : Reachable exS4 :=
  Reachable.step reachS3 (Step.insCompany exC2 (by decide))

theorem reachS5 : Reachable exS5 :=
  Reachable.step reachS4 (Step.insContact exK1 (by decide))

theorem reachS6 : Reachable exS6 :=
  Reachable.step reachS5 (Step.insContact exK2 (by decide))

theorem reachS7 : Reachable exS7 :=
  Reachable.step reachS6 (Step.insDeal exD1 (by decide))

theorem reachS8 : Reachable exS8 :=
  Reachable.step reachS7 (Step.insOrder exO1 (by decide))

theorem reachS9 : Reachable exS9 :=
  Reachable.step reachS8 (Step.insOrder exO2 (by decide))

theorem reachS10 : Reachable exS10 :=
  Reachable.step reachS9 (Step.insAudit exA1 (by decide))

theorem stepS10S11 : Step exS10 exS11 :=
  Step.updAudit 1 exA1upd 5 (by decide)

theorem reachS11 : Reachable exS11 :=
  Reachable.step reachS10 stepS10S11

theorem stepS11S12 : Step exS11 exS12 :=
  Step.updContact 2 exK2upd 6 (by decide)

theorem reachS12 : Reachable exS12 :=
  Reachable.step reachS11 stepS11S12

/-! ## List lemmas about the constraint checkers -/

theorem all_sublist {α : Type} {p : α → Bool} {l₁ l₂ : List α}
    (h : l₁.Sublist l₂) (h2 : l₂.all p = true) : l₁.all p = true := by
  simp only [List.all_eq_true] at h2 ⊢
  exact fun x hx => h2 x (h.subset hx)

theorem allDistinct_sublist {l₁ l₂ : List Nat} (h : l₁.Sublist l₂)
    (h2 : allDistinct l₂ = true) : allDistinct l₁ = true := by
  induction h with
  | slnil => rfl
  | cons a _ ih =>
      simp only [allDistinct, Bool.and_eq_true] at h2
      exact ih h2.2
  | cons₂ a hsub ih =>
      simp only [allDistinct, Bool.and_eq_true, Bool.not_eq_true',
        decide_eq_false_iff_not] at h2 ⊢
      exact ⟨fun hm => h2.1 (hsub.subset hm), ih h2.2⟩

theorem optsDistinct_sublist {α : Type} [DecidableEq α]
    {l₁ l₂ : List (Option α)} (h : l₁.Sublist l₂)
    (h2 : optsDistinct l₂ = true) : optsDistinct l₁ = true := by
  induction h with
  | slnil => rfl
  | cons a _ ih =>
      cases a with
      | none =>
          simp only [optsDistinct] at h2
          exact ih h2
      | some x =>
          simp only [optsDistinct, Bool.and_eq_true] at h2
          exact ih h2.2
  | cons₂ a hsub ih =>
      cases a with
      | none =>
          simp only [optsDistinct] at h2 ⊢
          exact ih h2
      | some x =>
          simp only [optsDistinct, Bool.and_eq_true, Bool.not_eq_true',
            decide_eq_false_iff_not] at h2 ⊢
          exact ⟨fun hm => h2.1 (hsub.subset hm), ih h2.2⟩

theorem optsDistinct_append_dup {α : Type} [DecidableEq α]
    {l : List (Option α)} {v : α} (hm : some v ∈ l) :
    optsDistinct (l ++ [some v]) = false := by
  induction l with
  | nil => simp at hm
  | cons a xs ih =>
      cases a with
      | none =>
          have hm' : some v ∈ xs := by
            rcases List.mem_cons.mp hm with h | h
            · exact Option.noConfusion h
            · exact h
          simpa only [List.cons_append, optsDistinct] using ih hm'
      | some x =>
          by_cases hvx : x = v
          · subst hvx
            simp [optsDistinct, List.mem_append]
          · have hm' : some v ∈ xs := by
              rcases List.mem_cons.mp hm with h | h
              · exact absurd (Option.some.inj h).symm hvx
              · exact h
            simp [optsDistinct, ih hm']

/-! ## Embedding of the pure client utilities (src/utils.js)

`sortBy` operates on JavaScript arrays, which are heap-allocated
mutable objects.  To make the frame property ("the input array is not
mutated") expressible, arrays live in an explicit heap: a list of
array contents indexed by reference.  `[...array]` allocates a fresh
reference holding a copy of the elements, and `.sort` rewrites the
array held by its receiver in place.

JavaScript element values are modelled by `JSValue`; the relational
comparison `a < b` is modelled on the primitive values the CRM sorts
(numbers and strings); the remaining mixed-type coercions of the
JavaScript `<` are collapsed to `false` (incomparable).  The sort
properties proved below - the result is a permutation and the input is
untouched - hold for every comparator, so this simplification does not
bear on them.  JavaScript numbers are modelled as integers; no claim
about `sortBy` depends on numeric semantics. -/

inductive JSValue : Type where
  | undefV : JSValue
  | nullV : JSValue
  | boolV : Bool → JSValue
  | numV : Int → JSValue
  | strV : String → JSValue
  | objV : List (String × JSValue) → JSValue

/-- `obj?.[k]`: property lookup with optional chaining; anything that
is not an object with the property yields `undefined`. -/
def getProp : JSValue → String → JSValue
  | .objV fields, k =>
      match fields.find? (fun p => p.1 == k) with
      | some p => p.2
      | none => .undefV
  | _, _ => .undefV

/-- `key.split('.').reduce((obj, k) => obj?.[k], a)` from `sortBy`. -/
def getPath (a : JSValue) (key : String) : JSValue :=
  (key.splitOn ".").foldl getProp a

/-- JavaScript `a < b` on the primitive values in scope (see above). -/
def jsLtB : JSValue → JSValue → Bool
  | .numV a, .numV b => decide (a < b)
  | .strV a, .strV b => decide (a < b)
  | _, _ => false

/-- The comparator closure passed to `.sort` by `sortBy` (src/utils.js
lines 126-133). -/
def sortByCmp (key direct : String) (a b : JSValue) : Int :=
  let aVal := getPath a key
  let bVal := getPath b key
  if jsLtB aVal bVal then (if direct == "asc" then -1 else 1)
  else if jsLtB bVal aVal then (if direct == "asc" then 1 else -1)
  else 0

/-- Engine model of `Array.prototype.sort`: an insertion sort driven by
the comparator (an element is placed after every element the comparator
does not order strictly after it). -/
def insertSorted (cmp : JSValue → JSValue → Int) (x : JSValue) :
    List JSValue → List JSValue
  | [] => [x]
  | y :: ys => if cmp y x ≤ 0 then y :: insertSorted cmp x ys else x :: y :: ys

def sortList (cmp : JSValue → JSValue → Int) : List JSValue → List JSValue
  | [] => []
  | x :: xs => insertSorted cmp x (sortList cmp xs)

theorem insertSorted_perm (cmp : JSValue → JSValue → Int) (x : JSValue)
    (l : List JSValue) : (insertSorted cmp x l).Perm (x :: l) := by
  induction l with
  | nil => exact List.Perm.refl _
  | cons y ys ih =>
      simp only [insertSorted]
      split
      · exact ((ih.cons y).trans (List.Perm.swap x y ys))
      · exact List.Perm.refl _

theorem sortList_perm (cmp : JSValue → JSValue → Int) (l : List JSValue) :
    (sortList cmp l).Perm l := by
  induction l with
  | nil => exact List.Perm.refl _
  | cons x xs ih => exact (insertSorted_perm cmp x (sortList cmp xs)).trans (ih.cons x)

/-- The mutable heap of arrays: index = array reference. -/
abbrev JSHeap : Type := List (List JSValue)

/-- Reading an array from the heap. -/
def heapGet (h : JSHeap) (r : Nat) : List JSValue := h.getD r []

def heapLen (h : JSHeap) : Nat := h.length

/-- `sortBy(array, key, direction)` (src/utils.js lines 125-134):
`[...array]` allocates a fresh array holding a copy of the input's
elements, `.sort(comparator)` rewrites that fresh array in place, and
the fresh reference is returned. -/
def sortBy (h : JSHeap) (arr : Nat) (key direct : String) : Nat × JSHeap :=
  let copy := heapLen h
  let h1 : JSHeap := h ++ [heapGet h arr]
  let h2 : JSHeap := h1.set copy (sortList (sortByCmp key direct) (heapGet h1 copy))
  (copy, h2)

theorem set_append_length {α : Type} (l : List α) (a b : α) :
    (l ++ [a]).set l.length b = l ++ [b] := by
  induction l with
  | nil => rfl
  | cons x xs ih =>
      show x :: ((xs ++ [a]).set xs.length b) = x :: (xs ++ [b])
      rw [ih]

/-- JavaScript string length, as an integer so that it can be compared
with an arbitrary numeric `maxLength`.  (JavaScript counts UTF-16 code
units where this model counts characters; `slice` below indexes in the
same units, so the length arithmetic of `truncateText` is unaffected.) -/
def jsStrLen (s : String) : Int := (s.length : Int)

/-- The index clamping performed by `String.prototype.slice`: a
negative index counts from the end (floored at 0), a nonnegative one is
capped at the string length. -/
def jsSliceIndex (len : Nat) (i : Int) : Nat :=
  if i < 0 then ((len : Int) + i).toNat else min i.toNat len

/-- `text.slice(start, end)`. -/
def jsSlice (s : String) (start endI : Int) : String :=
  let st := jsSliceIndex s.length start
  let en := jsSliceIndex s.length endI
  ((s.toList.drop st).take (en - st)).asString

/-- `truncateText(text, maxLength)` (src/utils.js lines 45-48). -/
def truncateText (text : String) (maxLength : Int) : String :=
  if jsStrLen text ≤ maxLength then text
  else jsSlice text 0 maxLength ++ "..."

/-- `truncateText(text)` with the default `maxLength = 50`. -/
def truncateTextDefault (text : String) : String := truncateText text 50

/-! ## The claims -/

/-- C1 (amended): in every state reachable by permitted operations,
every row of every tenant-scoped table (audit_logs, users, user_roles,
companies, company_addresses, contacts, deals, deal_activities,
orders, order_items, documents) carries a non-null tenant reference -
the `NOT NULL` declarations guarantee this - but the reference is not
immutable after creation: a permitted UPDATE may change a stored row's
`tenant_id` to another tenant. -/
theorem tenant_ref_non_null_and_mutable :
    (∀ s : DBState, Reachable s → tenantNonNullAll s = true) ∧
    (∃ s s' : DBState, Reachable s ∧ Step s s' ∧
      ∃ c ∈ s.contacts, ∃ c' ∈ s'.contacts,
        c.id = c'.id ∧ c.tenant_id ≠ c'.tenant_id) := by
  constructor
  · exact fun s hs => wf_tenant_non_null (reachable_wf hs)
  · exact ⟨exS11, exS12, reachS11, stepS11S12, exK2, by decide, exK2upd,
      by decide, by decide, by decide⟩

/-- C1 witness: the non-null invariant, instantiated at the final state
of the concrete run. -/
theorem tenant_ref_non_null_and_mutable_witness :
    tenantNonNullAll exS12 = true :=
  tenant_ref_non_null_and_mutable.1 exS12 reachS12

/-- C1 counterexample: contact 2 is created under tenant 101
(state `exS11`), and a single permitted UPDATE moves it to tenant 102
(state `exS12`), so the tenant reference is not immutable. -/
theorem tenant_mutated_counterexample :
    Reachable exS11 ∧ Step exS11 exS12 ∧
    exS11.contacts.map (fun c => (c.id, c.tenant_id)) =
      [(1, some 102), (2, some 101)] ∧
    exS12.contacts.map (fun c => (c.id, c.tenant_id)) =
      [(1, some 102), (2, some 102)] :=
  ⟨reachS11, stepS11S12, by decide, by decide⟩

/-- C2 (amended): the declared foreign keys guarantee that every
reference of the child tables (contacts.company_id, deals.company_id,
deals.contact_id, orders.deal_id, orders.company_id, orders.contact_id,
order_items.order_id) resolves to an existing row, but they do not
relate the two rows' tenants. -/
theorem fk_references_exist (s : DBState) (hs : Reachable s) :
    fkResolvedAll s = true :=
  wf_fk_resolved (reachable_wf hs)

/-- C2 witness: foreign-key resolution at the final state of the
concrete run. -/
theorem fk_references_exist_witness : fkResolvedAll exS12 = true :=
  fk_references_exist exS12 reachS12

/-- C2 counterexample: in reachable state `exS5` the only contact
belongs to tenant 102 yet references company uuid 201, whose row
belongs to tenant 101 - the schema accepts the cross-tenant
foreign-key reference. -/
theorem cross_tenant_fk_counterexample :
    Reachable exS5 ∧
    exS5.contacts.map (fun c => (c.company_id, c.tenant_id)) =
      [(some 201, some 102)] ∧
    exS5.companies.map (fun c => (c.uuid, c.tenant_id)) =
      [(some 201, some 101), (some 202, some 101)] :=
  ⟨reachS5, by decide, by decide⟩

/-- C3 (amended): audit rows are not protected by the schema: any
audit row of a well-formed state can be removed by a permitted DELETE
(nothing references `audit_logs`), and permitted UPDATEs may rewrite
audit rows - the script even installs the `updated_at` trigger on
`audit_logs` (line 358). -/
theorem audit_rows_deletable (s : DBState) (k : Nat) (hwf : WF s = true)
    (hex : (s.audit_logs.any (fun a => a.id == k)) = true) :
    deleteAuditLog s k =
      some { s with audit_logs := (s.audit_logs.filter (fun a => a.id != k)) } := by
  have hsub : (s.audit_logs.filter (fun a => a.id != k)).Sublist s.audit_logs :=
    List.filter_sublist _
  have hwf' : WF { s with audit_logs :=
      (s.audit_logs.filter (fun a => a.id != k)) } = true := by
    simp only [WF, tenantUuids, userUuids, companyUuids, contactUuids,
      dealUuids, orderUuids, Bool.and_eq_true] at hwf ⊢
    obtain ⟨⟨⟨⟨⟨⟨⟨⟨⟨⟨⟨hA, hT⟩, hU⟩, hUR⟩, hC⟩, hCA⟩, hK⟩, hD⟩, hDA⟩, hO⟩, hOI⟩, hDoc⟩ := hwf
    refine ⟨⟨⟨⟨⟨⟨⟨⟨⟨⟨⟨?_, hT⟩, hU⟩, hUR⟩, hC⟩, hCA⟩, hK⟩, hD⟩, hDA⟩, hO⟩, hOI⟩, hDoc⟩
    simp only [auditLogsWF, Bool.and_eq_true] at hA ⊢
    exact ⟨⟨allDistinct_sublist (hsub.map (fun r => r.id)) hA.1.1,
      optsDistinct_sublist (hsub.map (fun r => r.uuid)) hA.1.2⟩,
      all_sublist hsub hA.2⟩
  simp [deleteAuditLog, hex, guardWF, hwf']

/-- C3 witness: the audit row of state `exS10` can be deleted. -/
theorem audit_rows_deletable_witness :
    deleteAuditLog exS10 1 =
      some { exS10 with audit_logs :=
        (exS10.audit_logs.filter (fun a => a.id != 1)) } :=
  audit_rows_deletable exS10 1 (by decide) (by decide)

/-- C3 counterexample: a permitted UPDATE rewrites the only audit row,
flipping `is_active` to false and (through the trigger of line 358)
moving `updated_at` from 0 to 5 - audit rows are neither immutable nor
protected from deactivation. -/
theorem audit_row_mutated_counterexample :
    Reachable exS10 ∧ Step exS10 exS11 ∧
    exS10.audit_logs.map (fun a => (a.id, a.is_active, a.updated_at)) =
      [(1, some true, some 0)] ∧
    exS11.audit_logs.map (fun a => (a.id, a.is_active, a.updated_at)) =
      [(1, some false, some 5)] :=
  ⟨reachS10, stepS10S11, by decide, by decide⟩

/-- C4 (amended): an order's single `deal_id` column references at most
one deal and must resolve to an existing deal row, but the schema does
not compare that deal's company with the order's company. -/
theorem order_deal_must_exist (s : DBState) (r : OrderRow) (s' : DBState)
    (d : Nat) (h : insertOrder s r = some s') (hd : r.deal_id = some d) :
    ∃ deal ∈ s.deals, deal.uuid = some d := by
  obtain ⟨hwf, rfl⟩ := guardWF_eq_some h
  obtain ⟨_, _, _, _, _, _, _, _, _, h10, _, _⟩ := wf_unpack hwf
  simp only [ordersWF, Bool.and_eq_true] at h10
  have hall := h10.2
  simp only [List.all_append, List.all_cons, List.all_nil, Bool.and_eq_true,
    Bool.and_true] at hall
  have hr := hall.2
  simp only [orderRowOk, Bool.and_eq_true] at hr
  have hfk : fkOk (dealUuids { s with orders := s.orders ++ [r] }) r.deal_id = true := by
    tauto
  rw [hd] at hfk
  simp only [fkOk, dealUuids, decide_eq_true_eq, List.mem_map] at hfk
  obtain ⟨deal, hmem, heq⟩ := hfk
  exact ⟨deal, hmem, heq⟩

/-- C4 witness: the mismatched order `exO1` references deal uuid 401,
which does exist in `exS7.deals`. -/
theorem order_deal_must_exist_witness :
    ∃ deal ∈ exS7.deals, deal.uuid = some 401 :=
  order_deal_must_exist exS7 exO1 exS8 401 (by decide) (by decide)

/-- C4 counterexample: order 1 (company 202) linked to deal 401 whose
company is 201 is accepted by the schema in reachable state `exS8` -
the insert the spec says must fail succeeds. -/
theorem order_deal_company_mismatch_counterexample :
    Reachable exS8 ∧
    exS8.orders.map (fun o => (o.deal_id, o.company_id)) =
      [(some 401, some 202)] ∧
    exS8.deals.map (fun de => (de.uuid, de.company_id)) =
      [(some 401, some 201)] :=
  ⟨reachS8, by decide, by decide⟩

theorem guardWF_eq_none {t : DBState} (h : WF t = false) : guardWF t = none := by
  simp [guardWF, h]

theorem isSome_guardWF (t : DBState) : (guardWF t).isSome = WF t := by
  unfold guardWF
  split
  · next h => simp [h]
  · next h => simp [Bool.not_eq_true] at h; simp [h]

theorem tenantsWF_false_of_dup {l : List TenantRow}
    (h : optsDistinct (l.map (fun r => r.slug)) = false) : tenantsWF l = false := by
  simp [tenantsWF, h]

theorem WF_false_of_tenants {t : DBState} (h : tenantsWF t.tenants = false) :
    WF t = false := by
  simp [WF, h]

/-- C5: tenant slugs are globally unique.  If inserting `t1` succeeded,
then inserting any `t2` with the same slug fails (no new state is
produced, so only the first tenant persists), and the violated
constraint is precisely the slug-uniqueness check. -/
theorem duplicate_slug_rejected (s : DBState) (t1 t2 : TenantRow)
    (s1 : DBState) (h1 : insertTenant s t1 = some s1)
    (h2 : t2.slug = t1.slug) :
    s1.tenants = s.tenants ++ [t1] ∧
    insertTenant s1 t2 = none ∧
    optsDistinct ((s1.tenants ++ [t2]).map (fun t => t.slug)) = false := by
  obtain ⟨hwf, rfl⟩ := guardWF_eq_some h1
  obtain ⟨_, hT, _⟩ := wf_unpack hwf
  simp only [tenantsWF, Bool.and_eq_true] at hT
  have ht1 : tenantRowOk t1 = true := by
    have hall := hT.2
    simp only [List.all_append, List.all_cons, List.all_nil, Bool.and_eq_true,
      Bool.and_true] at hall
    exact hall.2
  have hslugN : notNull t1.slug = true := by
    simp only [tenantRowOk, Bool.and_eq_true] at ht1
    tauto
  obtain ⟨v, hv⟩ := Option.isSome_iff_exists.mp hslugN
  have hmem : some v ∈
      (({ s with tenants := s.tenants ++ [t1] } : DBState).tenants).map
        (fun t => t.slug) := by
    simp only [List.map_append, List.mem_append]
    right
    simp [hv]
  have hdup : optsDistinct
      ((({ s with tenants := s.tenants ++ [t1] } : DBState).tenants ++ [t2]).map
        (fun t => t.slug)) = false := by
    rw [List.map_append]
    have h2' : ([t2].map (fun t => t.slug)) = [some v] := by simp [h2, hv]
    rw [h2']
    exact optsDistinct_append_dup hmem
  refine ⟨rfl, ?_, hdup⟩
  show guardWF _ = none
  apply guardWF_eq_none
  apply WF_false_of_tenants
  apply tenantsWF_false_of_dup
  exact hdup

/-- The tenant row of the C5 witness: same slug as `exT1`. -/
def exT1dup : TenantRow := { exT2 with slug := some "acme" }

/-- C5 witness: after creating the tenant with slug "acme", creating a
second tenant with slug "acme" is rejected. -/
theorem duplicate_slug_rejected_witness :
    exS1.tenants = emptyDB.tenants ++ [exT1] ∧
    insertTenant exS1 exT1dup = none ∧
    optsDistinct ((exS1.tenants ++ [exT1dup]).map (fun t => t.slug)) = false :=
  duplicate_slug_rejected emptyDB exT1 exT1dup exS1 (by decide) (by decide)

/-- C6 counterexample: reachable state `exS6` holds two contacts of
company 201, both with `is_primary = true` - the schema does not bound
primary contacts per company. -/
theorem two_primary_contacts_counterexample :
    Reachable exS6 ∧
    exS6.contacts.map (fun c => (c.company_id, c.is_primary)) =
      [(some 201, some true), (some 201, some true)] :=
  ⟨reachS6, by decide⟩

/-- C6 (amended): the schema places no constraint on
`contacts.is_primary`: whether a contact INSERT is accepted never
depends on that column, so nothing stops a second primary contact for
the same company. -/
theorem contact_is_primary_unconstrained (s : DBState) (r : ContactRow)
    (b b' : Option Bool) :
    (insertContact s { r with is_primary := b }).isSome
      = (insertContact s { r with is_primary := b' }).isSome := by
  cases r
  show (guardWF _).isSome = (guardWF _).isSome
  rw [isSome_guardWF, isSome_guardWF]
  simp only [WF, auditLogsWF, tenantsWF, usersWF,
    userRolesWF, companiesWF, companyAddressesWF, contactsWF, contactRowOk,
    dealsWF, dealRowOk, dealActivitiesWF, ordersWF, orderRowOk, orderItemsWF,
    documentsWF, tenantUuids, userUuids, companyUuids, contactUuids, dealUuids,
    orderUuids, List.map_append, List.all_append, List.all_cons, List.all_nil,
    List.map_cons, List.map_nil]

/-- C7: in every reachable state order numbers are present and pairwise
distinct and every order carries a company reference, while the deal
reference is optional: a reachable state contains an order whose
`deal_id` is NULL. -/
theorem order_number_unique_company_mandatory :
    (∀ s : DBState, Reachable s → ordersNumberCompanyInv s = true) ∧
    (∃ s : DBState, Reachable s ∧ ∃ o ∈ s.orders, o.deal_id = none) := by
  constructor
  · exact fun s hs => wf_orders_inv (reachable_wf hs)
  · exact ⟨exS9, reachS9, exO2, by decide, by decide⟩

/-- C7 witness: the invariant instantiated at the state holding both
concrete orders. -/
theorem order_number_unique_company_mandatory_witness :
    ordersNumberCompanyInv exS9 = true :=
  order_number_unique_company_mandatory.1 exS9 reachS9

/-- The six pipeline stages enumerated by the spec for `deals.stage`. -/
def specDealStages : List String :=
  ["lead", "qualified", "proposal", "negotiation", "won", "lost"]

/-- C8 counterexample: reachable state `exS7` holds a deal whose stage
is "banana" (outside the six enumerated stages) and whose probability
is 150 (outside 0-100): the schema accepted the insert the claim says
must be rejected. -/
theorem deal_stage_probability_counterexample :
    Reachable exS7 ∧
    exS7.deals.map (fun d => (d.stage, d.probability)) =
      [(some "banana", some 150)] ∧
    specDealStages.all (fun st => st != "banana") = true ∧
    ¬ ((150 : Int) ≤ 100) :=
  ⟨reachS7, by decide, by decide, by decide⟩

/-- C8 (amended): the schema does not constrain `deals.stage` to the
six enumerated values nor `deals.probability` to 0-100: whether a deal
INSERT is accepted is independent of the two columns (for the stage,
up to the only declared check, the VARCHAR(50) length bound). -/
theorem deal_stage_probability_unconstrained (s : DBState) (r : DealRow)
    (st st' : Option String) (p p' : Option Int)
    (hlen : lenOk 50 st = lenOk 50 st') :
    (insertDeal s { r with stage := st, probability := p }).isSome
      = (insertDeal s { r with stage := st', probability := p' }).isSome := by
  cases r
  show (guardWF _).isSome = (guardWF _).isSome
  rw [isSome_guardWF, isSome_guardWF]
  simp only [WF, auditLogsWF, tenantsWF, usersWF,
    userRolesWF, companiesWF, companyAddressesWF, contactsWF, contactRowOk,
    dealsWF, dealRowOk, dealActivitiesWF, ordersWF, orderRowOk, orderItemsWF,
    documentsWF, tenantUuids, userUuids, companyUuids, contactUuids, dealUuids,
    orderUuids, List.map_append, List.all_append, List.all_cons, List.all_nil,
    List.map_cons, List.map_nil, hlen]

/-- C8 witness: acceptance with the out-of-enumeration values equals
acceptance with legitimate ones. -/
theorem deal_stage_probability_unconstrained_witness :
    (insertDeal exS6 { exD1 with stage := some "banana", probability := some 150 }).isSome
      = (insertDeal exS6 { exD1 with stage := some "won", probability := some 7 }).isSome :=
  deal_stage_probability_unconstrained exS6 exD1 (some "banana") (some "won")
    (some 150) (some 7) (by decide)

/-- C9: `sortBy` does not mutate its input array - after the call the
input reference still holds exactly its old elements - and it returns a
distinct, freshly allocated array whose contents are a permutation of
the input's. -/
theorem sortBy_frame_and_perm (h : JSHeap) (arr : Nat) (key direct : String)
    (harr : arr < heapLen h) :
    heapGet (sortBy h arr key direct).2 arr = heapGet h arr ∧
    (sortBy h arr key direct).1 ≠ arr ∧
    (heapGet (sortBy h arr key direct).2 (sortBy h arr key direct).1).Perm
      (heapGet h arr) := by
  have hlen : arr < h.length := harr
  have hcopy : heapGet (h ++ [heapGet h arr]) (heapLen h) = heapGet h arr := by
    unfold heapGet heapLen
    rw [List.getD_append_right _ _ _ _ (le_refl _)]
    simp
  have hset : (h ++ [heapGet h arr]).set (heapLen h)
      (sortList (sortByCmp key direct) (heapGet (h ++ [heapGet h arr]) (heapLen h)))
      = h ++ [sortList (sortByCmp key direct) (heapGet h arr)] := by
    rw [hcopy]
    exact set_append_length h _ _
  refine ⟨?_, ?_, ?_⟩
  · show heapGet ((h ++ [heapGet h arr]).set (heapLen h)
      (sortList (sortByCmp key direct)
        (heapGet (h ++ [heapGet h arr]) (heapLen h)))) arr = heapGet h arr
    rw [hset]
    unfold heapGet
    exact List.getD_append _ _ _ _ hlen
  · show heapLen h ≠ arr
    unfold heapLen
    omega
  · show (heapGet ((h ++ [heapGet h arr]).set (heapLen h)
      (sortList (sortByCmp key direct)
        (heapGet (h ++ [heapGet h arr]) (heapLen h)))) (heapLen h)).Perm
      (heapGet h arr)
    rw [hset]
    unfold heapGet heapLen
    rw [List.getD_append_right _ _ _ _ (le_refl _)]
    simp only [Nat.sub_self]
    exact sortList_perm _ _

/-- C9 witness: the frame and permutation facts at a one-array heap. -/
theorem sortBy_frame_and_perm_witness :
    heapGet (sortBy [[JSValue.numV 3, JSValue.numV 1]] 0 "x" "asc").2 0
        = heapGet [[JSValue.numV 3, JSValue.numV 1]] 0 ∧
    (sortBy [[JSValue.numV 3, JSValue.numV 1]] 0 "x" "asc").1 ≠ 0 ∧
    (heapGet (sortBy [[JSValue.numV 3, JSValue.numV 1]] 0 "x" "asc").2
        (sortBy [[JSValue.numV 3, JSValue.numV 1]] 0 "x" "asc").1).Perm
      (heapGet [[JSValue.numV 3, JSValue.numV 1]] 0) :=
  sortBy_frame_and_perm [[JSValue.numV 3, JSValue.numV 1]] 0 "x" "asc"
    (by decide)

/-- C10 counterexample: at the negative `maxLength = -1`,
`truncateText("ab", -1)` returns "a..." (JavaScript `slice` counts a
negative end from the end of the string), whose length 4 is not
`maxLength + 3 = 2`, and which is not the "first -1 characters"
of "ab" either. -/
theorem truncateText_negative_maxLength_counterexample :
    truncateText "ab" (-1) = "a..." ∧
    jsStrLen (truncateText "ab" (-1)) ≠ (-1) + 3 := by
  constructor
  · decide
  · decide

/-- C10 (amended): for every nonnegative `maxLength`, `truncateText`
returns the text unchanged when it is short enough and otherwise the
first `maxLength` characters followed by "...", of length exactly
`maxLength + 3`; with the default `maxLength = 50` the result never
exceeds 53 characters. -/
theorem truncateText_spec (text : String) (m : Int) (hm : 0 ≤ m) :
    (jsStrLen text ≤ m → truncateText text m = text) ∧
    (m < jsStrLen text →
      truncateText text m = (text.toList.take m.toNat).asString ++ "..." ∧
      jsStrLen (truncateText text m) = m + 3) ∧
    jsStrLen (truncateTextDefault text) ≤ 53 := by
  have hgen : ∀ n : Int, 0 ≤ n → n < jsStrLen text →
      truncateText text n = (text.toList.take n.toNat).asString ++ "..." ∧
      jsStrLen (truncateText text n) = n + 3 := by
    intro n hn hlt
    have hnle : ¬ (jsStrLen text ≤ n) := by omega
    have hlen : n.toNat ≤ text.length := by
      unfold jsStrLen at hlt
      omega
    have htt : truncateText text n = (text.toList.take n.toNat).asString ++ "..." := by
      unfold truncateText
      rw [if_neg hnle]
      unfold jsSlice jsSliceIndex
      have h0 : ¬ ((0:Int) < 0) := by omega
      have hn0 : ¬ (n < 0) := by omega
      rw [if_neg h0, if_neg hn0]
      have hmin : min n.toNat text.length = n.toNat := by omega
      have h0t : (0:Int).toNat = 0 := rfl
      rw [h0t, hmin]
      simp
    refine ⟨htt, ?_⟩
    rw [htt]
    unfold jsStrLen
    rw [String.length_append, List.length_asString, List.length_take]
    have htl : text.toList.length = text.length := rfl
    rw [htl]
    have hmin : min n.toNat text.length = n.toNat := by omega
    rw [hmin]
    have h3 : ("..." : String).length = 3 := rfl
    rw [h3]
    omega
  have hdef : jsStrLen (truncateTextDefault text) ≤ 53 := by
    unfold truncateTextDefault
    by_cases hle : jsStrLen text ≤ 50
    · unfold truncateText
      rw [if_pos hle]
      omega
    · have := (hgen 50 (by omega) (by omega)).2
      omega
  refine ⟨?_, fun hlt => hgen m hm hlt, hdef⟩
  intro hle
  unfold truncateText
  rw [if_pos hle]

/-- C10 witness: the amended facts at `text = "hello"`, `maxLength = 3`. -/
theorem truncateText_spec_witness :
    (jsStrLen "hello" ≤ 3 → truncateText "hello" 3 = "hello") ∧
    ((3 : Int) < jsStrLen "hello" →
      truncateText "hello" 3 = ("hello".toList.take (3 : Int).toNat).asString ++ "..." ∧
      jsStrLen (truncateText "hello" 3) = 3 + 3) ∧
    jsStrLen (truncateTextDefault "hello") ≤ 53 :=
  truncateText_spec "hello" 3 (by decide)
